import Mathlib

/-!
Shallow embedding of the Cattr API SDK HTTP core (`src/index.js`) and its
authentication module, with the external collaborators (token/credentials
providers, axios transport) modelled as explicit oracles.

JavaScript values flowing through the SDK are modelled by `JVal`; the
pluggable provider pair and the axios instance are modelled by a `World`
(static configuration and transport oracle) plus an `St` (mutable state:
the token stored in the token provider, the axios `baseURL`, and the
sequence of requests issued through the transport).  JavaScript exceptions
are modelled with `Except Err`; since a thrown exception does not undo
already-performed transport calls, every operation returns
`Except Err α × St` (the state after the call, whether it threw or not).
-/

namespace Cattr

/-- Model of a JavaScript/JSON value. `undef` models `undefined`. -/
inductive JVal where
  | str (s : String)
  | num (n : Int)
  | bool (b : Bool)
  | null
  | undefined
  | obj (fields : List (String × JVal))

/-- Property read `v[k]` with optional-chaining semantics: any non-object
base (including `null`/`undefined`, as under `?.`) yields `undefined`. -/
def jGet : JVal → String → JVal
  | .obj fs, k => match fs.lookup k with
    | some v => v
    | none => .undefined
  | _, _ => .undefined

/-- JavaScript truthiness. -/
def jTruthy : JVal → Bool
  | .null => false
  | .undefined => false
  | .bool b => b
  | .num n => n != 0
  | .str s => s != ""
  | .obj _ => true

/-- JavaScript string coercion, as used by template interpolation. -/
def jDisplay : JVal → String
  | .str s => s
  | .num n => toString n
  | .bool true => "true"
  | .bool false => "false"
  | .null => "null"
  | .undefined => "undefined"
  | .obj _ => "[object Object]"

/-- `true` iff the argument is a non-empty string (the validation used by
`login` and `authenticateViaSSO` on their parameters). -/
def isNonEmptyString : JVal → Bool
  | .str s => s != ""
  | _ => false

/-- Prefix test on character lists (splitting on the pattern first, so
that an empty pattern reduces without inspecting the text). -/
def isPrefixOfL : List Char → List Char → Bool
  | [], _ => true
  | _ :: _, [] => false
  | p :: ps, c :: cs => p == c && isPrefixOfL ps cs

/-- Substring search over character lists (`String.prototype.includes`). -/
def containsSub (pat : List Char) : List Char → Bool
  | [] => isPrefixOfL pat ([] : List Char)
  | c :: cs => isPrefixOfL pat (c :: cs) || containsSub pat cs

/-- `s.includes(pat)` for strings. -/
def strContains (s pat : String) : Bool := containsSub pat.toList s.toList

/-- Request context attached to error outcomes:
`{ url, payload (write verbs only, secrets redacted), method }`. -/
structure Ctx where
  url : String
  payload : Option (List (String × JVal)) := none
  method : String

/-- The `error` field of a failure outcome: either a `CredentialsError`
constructed by the core, or the axios rejection (with the server response
`(status, data)` when one was received, `none` on a network error). -/
inductive ErrVal where
  | credentials (status : Nat) (code : String) (message : String)
  | transport (response : Option (Nat × JVal))

/-- The uniform result shape of `get`/`post`:
`{success: true, response}` or `{success: false, isNetworkError, error, context?}`. -/
inductive Outcome where
  | success (response : JVal)
  | failure (isNetworkError : Bool) (error : ErrVal) (context : Option Ctx)

/-- `res.context` (present only on catch-branch failures). -/
def outcomeContext : Outcome → Option Ctx
  | .success _ => none
  | .failure _ _ c => c

/-- A thrown JavaScript exception. `ApiError`/`NetworkError` construction is
recorded together with the constructor arguments used at the throw site. -/
inductive Err where
  | typeError (msg : String)
  | plainError (msg : String)
  | apiErrorOf (res : Outcome)
  | apiErrorObj (statusCode : Nat) (message : String) (context : Option Ctx)
  | networkErrorOf (res : Outcome)
  | providerError

/-- Property read `v.k` by plain member access: throws a `TypeError` when
the base is `null`/`undefined`, otherwise behaves like `jGet`. -/
def jGetE (v : JVal) (k : String) : Except Err JVal :=
  match v with
  | .null => .error (.typeError ("Cannot read properties of null (reading " ++ k ++ ")"))
  | .undefined => .error (.typeError ("Cannot read properties of undefined (reading " ++ k ++ ")"))
  | v' => .ok (jGet v' k)

/-- One request issued through the shared axios instance. -/
structure HttpReq where
  method : String
  url : String
  headers : List (String × JVal)
  data : Option (List (String × JVal)) := none

/-- A transport result: resolved with payload `data`, rejected without a
server response (network error), or rejected with a response. -/
inductive TResp where
  | ok (data : JVal)
  | netErr
  | httpErr (status : Nat) (data : JVal)

/-- Mutable state of a run: the token currently stored in the token
provider, `axiosConfiguration.baseURL`, and the transport call log. -/
structure St where
  token : Option JVal
  baseURL : Option String := none
  calls : Nat := 0
  log : List HttpReq := []

/-- The credentials record returned by the credentials provider. -/
structure Creds where
  email : JVal
  password : JVal

/-- Static environment: the transport oracle (response to the n-th request)
and the configuration/behaviour of the externally supplied providers. -/
structure World where
  transport : Nat → TResp
  hasTokenProvider : Bool
  hasCredentialsProvider : Bool
  credGet : Except Unit (Option Creds)
  tokenSetFails : Bool
  npmVersion : String

/-- The recognised request options (`RequestOptions` plus the internally
used `noRelogin`, `method` and `timeout`). -/
structure Opts where
  headers : Option (List (String × JVal)) := none
  noAuth : Bool := false
  noPaginate : Bool := false
  noRelogin : Bool := false
  asFormData : Bool := false
  method : Option String := none
  timeout : Option Nat := none

/-- `opts && opts.noAuth` for a possibly-`undefined` options object. -/
def optsNoAuth : Option Opts → Bool
  | some o => o.noAuth
  | none => false

/-- `opts && opts.noRelogin`. -/
def optsNoRelogin : Option Opts → Bool
  | some o => o.noRelogin
  | none => false

/-- `opts && opts.noPaginate === true`. -/
def optsNoPaginate : Option Opts → Bool
  | some o => o.noPaginate
  | none => false

/-- `opts && opts.asFormData === true`. -/
def optsAsFormData : Option Opts → Bool
  | some o => o.asFormData
  | none => false

/-- The extra headers supplied in the options, if any. -/
def optsHeaders : Option Opts → List (String × JVal)
  | some o => o.headers.getD []
  | none => []

/-- `opts && opts.method` as used by `post` (a present-but-falsy method
string such as `""` behaves like an absent one). -/
def optsMethodVal : Option Opts → Option String
  | some o => match o.method with
    | some m => if m = "" then none else some m
    | none => none
  | none => none

/-- `Object.assign(opts || \x7b\x7d, \x7b noRelogin: true \x7d)`. -/
def withNoRelogin (opts : Option Opts) : Opts :=
  { opts.getD {} with noRelogin := true }

/-- Header-map assignment `headers[k] = v` (object key update). -/
def hset (hs : List (String × JVal)) (k : String) (v : JVal) : List (String × JVal) :=
  hs.filter (fun p => p.1 ≠ k) ++ [(k, v)]

/-- `Object.assign(headers, add)`. -/
def hmerge (hs add : List (String × JVal)) : List (String × JVal) :=
  add.foldl (fun acc p => hset acc p.1 p.2) hs

/-- One call through the axios instance: consumes the next transport
response and appends the request to the log. -/
def issue (w : World) (st : St) (req : HttpReq) : TResp × St :=
  (w.transport st.calls,
   { st with calls := st.calls + 1, log := st.log ++ [req] })

/-- JavaScript strict equality `v === s` against a string literal. -/
def jvalStrEq (v : JVal) (s : String) : Bool :=
  match v with
  | .str t => t == s
  | _ => false

/-- Secret redaction performed when building a write call's error context
(`index.js` lines 476-480): a field whose name includes one of the five
sensitive substrings has its value replaced by the `"***"` marker. -/
def sensitiveName (k : String) : Bool :=
  (["screenshot", "password", "secret", "token", "api_key"]).any
    (fun s => strContains k s)

/-- `Object.fromEntries(Object.entries(body).map(...))` of the catch branch
of `post`. -/
def redactPayload (body : List (String × JVal)) : List (String × JVal) :=
  body.map (fun p => if sensitiveName p.1 then (p.1, JVal.str "***") else p)

/-- The authentication-attachment section shared by `get` (lines 273-304)
and `post` (lines 423-454): unless `noAuth`, read the token from the token
provider (a `TypeError` if none is installed); if absent, fail with a
`CredentialsError` when `noRelogin` is set or automatic relogin fails,
and finally attach `Authorization: Bearer <token>` re-reading the provider.
`failMsg` is the relogin-failed message (it differs between `get` and
`post` by a typo in the source). Returns either the final headers or the
early `CredentialsError` outcome. -/
def authStep (relogin : St → Except Err Bool × St) (w : World) (opts : Option Opts)
    (headers : List (String × JVal)) (failMsg : String) (st : St) :
    Except Err (List (String × JVal) ⊕ Outcome) × St :=
  if optsNoAuth opts then (.ok (.inl headers), st)
  else if !w.hasTokenProvider then
    (.error (.typeError "Cannot read properties of null (reading get)"), st)
  else
    match st.token with
    | some v =>
        (.ok (.inl (hset headers "Authorization" (.str ("Bearer " ++ jDisplay v)))), st)
    | none =>
        if optsNoRelogin opts then
          (.ok (.inr (.failure false (.credentials 401 "authorization.unauthorized"
              "Token provider returned nothing, but relogin is disabled") none)), st)
        else
          match relogin st with
          | (.error e, st1) => (.error e, st1)
          | (.ok false, st1) =>
              (.ok (.inr (.failure false
                  (.credentials 401 "authorization.unauthorized" failMsg) none)), st1)
          | (.ok true, st1) =>
            match st1.token with
            | none => (.error (.typeError "Cannot read properties of null (reading token)"), st1)
            | some v =>
                (.ok (.inl (hset headers "Authorization" (.str ("Bearer " ++ jDisplay v)))), st1)

/-- The catch branch shared by `get` (lines 315-372) and `post` (lines
472-534): classify the axios rejection `resp` (`none` = no server
response), pass the error through when authentication is disabled, the
response is not a recoverable 401, or `noRelogin` is set; otherwise
attempt one automatic relogin and, on success, re-issue via `retry` with
`noRelogin` forced on the (mutated) options object. -/
def catchStep (relogin : St → Except Err Bool × St)
    (retry : Option Opts → St → Except Err (Outcome × Option Opts) × St)
    (opts : Option Opts) (ctx : Ctx) (resp : Option (Nat × JVal)) (st : St) :
    Except Err (Outcome × Option Opts) × St :=
  let errv := ErrVal.transport resp
  if optsNoAuth opts then (.ok (.failure resp.isNone errv (some ctx), opts), st)
  else
    match resp with
    | none => (.ok (.failure true errv (some ctx), opts), st)
    | some (status, data) =>
      if status != 401 then (.ok (.failure false errv (some ctx), opts), st)
      else
        match jGetE data "code" with
        | .error e => (.error e, st)
        | .ok codeV =>
          if !(jvalStrEq codeV "authorization.unauthorized"
               || jvalStrEq codeV "authorization.token_expired") then
            (.ok (.failure false errv (some ctx), opts), st)
          else if optsNoRelogin opts then
            (.ok (.failure false errv (some ctx), opts), st)
          else
            match relogin st with
            | (.error e, st1) => (.error e, st1)
            | (.ok false, st1) => (.ok (.failure false errv (some ctx), opts), st1)
            | (.ok true, st1) =>
              match retry (some (withNoRelogin opts)) st1 with
              | (.error e, st2) => (.error e, st2)
              | (.ok (out, opts2), st2) =>
                (.ok (out, if opts.isSome then opts2 else none), st2)

/-- Body of `Cattr#get` (lines 263-374), with the recursive self-call of
the retry path abstracted as `retry` and `this.reloginAutomatically`
abstracted as `relogin`.  Returns the outcome together with the final
value of the caller-supplied options object (mutated in place by the
retry path) and the final state. -/
def getBody (relogin : St → Except Err Bool × St)
    (retry : String → Option Opts → St → Except Err (Outcome × Option Opts) × St)
    (w : World) (url : String) (opts : Option Opts) (st : St) :
    Except Err (Outcome × Option Opts) × St :=
  let headers := hmerge [] (optsHeaders opts)
  match authStep relogin w opts headers
      "Token proivder returned nothing, and relogin is failed" st with
  | (.error e, st1) => (.error e, st1)
  | (.ok (.inr out), st1) => (.ok (out, opts), st1)
  | (.ok (.inl headers1), st1) =>
    let headers2 := if optsNoPaginate opts then hset headers1 "X-Paginate" (.str "false")
                    else headers1
    match issue w st1 { method := "get", url := url, headers := headers2 } with
    | (.ok data, st2) => (.ok (.success data, opts), st2)
    | (.netErr, st2) =>
        catchStep relogin (fun o s => retry url o s) opts
          { url := url, method := "get" } none st2
    | (.httpErr status data, st2) =>
        catchStep relogin (fun o s => retry url o s) opts
          { url := url, method := "get" } (some (status, data)) st2

/-- Continuation of `postBody` after the supported-method validation
(lines 423 onwards). -/
def postAfterMethodCheck (relogin : St → Except Err Bool × St)
    (retry : String → List (String × JVal) → Option Opts → St →
      Except Err (Outcome × Option Opts) × St)
    (w : World) (url : String) (body : List (String × JVal)) (opts : Option Opts)
    (headers : List (String × JVal)) (st : St) :
    Except Err (Outcome × Option Opts) × St :=
  match authStep relogin w opts headers
      "Token provider returned nothing, and relogin is failed" st with
  | (.error e, st1) => (.error e, st1)
  | (.ok (.inr out), st1) => (.ok (out, opts), st1)
  | (.ok (.inl headers1), st1) =>
    let method := (optsMethodVal opts).getD "post"
    match issue w st1 { method := method, url := url, headers := headers1,
                        data := some body } with
    | (.ok data, st2) => (.ok (.success data, opts), st2)
    | (.netErr, st2) =>
        catchStep relogin (fun o s => retry url body o s) opts
          { url := url, payload := some (redactPayload body), method := method } none st2
    | (.httpErr status data, st2) =>
        catchStep relogin (fun o s => retry url body o s) opts
          { url := url, payload := some (redactPayload body), method := method }
          (some (status, data)) st2

/-- Body of `Cattr#post` (lines 382-536), with the recursive self-call and
`this.reloginAutomatically` abstracted as for `getBody`.  The `FormData`
encoding of the body is abstracted (the entries are carried as data and
the multipart boundary headers are represented by a content-type header). -/
def postBody (relogin : St → Except Err Bool × St)
    (retry : String → List (String × JVal) → Option Opts → St →
      Except Err (Outcome × Option Opts) × St)
    (w : World) (url : String) (body : List (String × JVal)) (opts : Option Opts)
    (st : St) : Except Err (Outcome × Option Opts) × St :=
  let headers := hmerge [] (optsHeaders opts)
  let headers := if optsAsFormData opts then
      hset headers "content-type" (.str "multipart/form-data") else headers
  let headers := if optsNoPaginate opts then hset headers "X-Paginate" (.str "false")
                 else headers
  let headers := hset headers "X-Requested-With" (.str ("Cattr-Node/v" ++ w.npmVersion))
  match optsMethodVal opts with
  | some m =>
    if !(m == "post" || m == "put" || m == "patch") then
      (.error (.typeError ("Unsupported request method: " ++ m)), st)
    else postAfterMethodCheck relogin retry w url body opts headers st
  | none => postAfterMethodCheck relogin retry w url body opts headers st

/-- Placeholder for the retry continuation of an inner (already
`noRelogin`-restricted) call of `get`; `getBody_noRelogin_indep` below
proves that such a call never reaches its retry continuation, so this
value is irrelevant. -/
def getRetryUnreached : String → Option Opts → St → Except Err (Outcome × Option Opts) × St :=
  fun _ _ st => (.error (.typeError "unreachable retry"), st)

/-- Placeholder retry continuation for inner calls of `post`; see
`postBody_noRelogin_indep`. -/
def postRetryUnreached : String → List (String × JVal) → Option Opts → St →
    Except Err (Outcome × Option Opts) × St :=
  fun _ _ _ st => (.error (.typeError "unreachable retry"), st)

/-- Placeholder relogin action for calls that can never reach the relogin
paths (`noAuth` requests); see `postBody_noAuth_indep`. -/
def reloginUnreached : St → Except Err Bool × St :=
  fun st => (.ok false, st)

/-- `new Date(v)`, modelled opaquely. -/
def jsDate (v : JVal) : JVal := .obj [("jsDate", v)]

/-- `Number(v)` (string parsing and NaN are abstracted to `undefined`). -/
def jsNumber : JVal → JVal
  | .num n => .num n
  | .bool true => .num 1
  | .bool false => .num 0
  | .null => .num 0
  | _ => .undefined

/-- `String(v)`. -/
def jsString (v : JVal) : JVal := .str (jDisplay v)

/-- `Boolean(v)`. -/
def jsBool (v : JVal) : JVal := .bool (jTruthy v)

/-- `userFormatter` of the authentication module: maps the backend's raw
user record to the client-facing `UserEntity` field set; throws a
`TypeError` when the raw record is `null`/`undefined`. -/
def userFormatter (user : JVal) : Except Err JVal :=
  match user with
  | .null => .error (.typeError "Cannot read properties of null (reading id)")
  | .undefined => .error (.typeError "Cannot read properties of undefined (reading id)")
  | u => .ok (.obj [
      ("id", jsNumber (jGet u "id")),
      ("fullName", jsString (jGet u "full_name")),
      ("email", jsString (jGet u "email")),
      ("avatar", if jTruthy (jGet u "avatar") then jsString (jGet u "avatar") else .null),
      ("manualTimeEnabled", jsBool (jGet u "manual_time")),
      ("inactivityTimeout", jsNumber (jGet u "computer_time_popup")),
      ("screenshotsEnabled", jsBool (jGet u "screenshots_active")),
      ("screenshotsInterval", jsNumber (jGet u "screenshots_interval")),
      ("appMonitoringEnabled", jsBool (jGet u "web_and_app_monitoring")),
      ("isActive", jsBool (jGet u "active")),
      ("isAdmin", jsBool (jGet u "is_admin")),
      ("isImportant", jsBool (jGet u "important")),
      ("forcePasswordReset", jsBool (jGet u "change_password")),
      ("timezone", jsString (jGet u "timezone")),
      ("createdAt", jsDate (jGet u "created_at")),
      ("updatedAt", jsDate (jGet u "updated_at")),
      ("deletedAt", if jTruthy (jGet u "deleted_at") then jsDate (jGet u "deleted_at")
                    else .null)])

/-- The `UserLoginDTO` produced by `login` / `authenticateViaSSO`:
`{ token: { token, tokenType, tokenExpire }, user }`. -/
structure LoginDTO where
  tokenValue : JVal
  tokenType : JVal
  tokenExpire : JVal
  user : JVal

/-- Shared tail of `login` and `authenticateViaSSO`: translate a failure
outcome into a thrown error, or build the `UserLoginDTO` from
`res.response.data` (`res.error instanceof ApiError` is never true here,
since outcome errors are axios rejections or a `CredentialsError`). -/
def loginResultToDTO (res : Outcome) : Except Err LoginDTO :=
  match res with
  | .failure isNet _ _ =>
    if isNet then .error (.networkErrorOf res) else .error (.apiErrorOf res)
  | .success resp =>
    match jGetE resp "data" with
    | .error e => .error e
    | .ok d =>
      match d with
      | .null => .error (.typeError "Cannot read properties of null (reading access_token)")
      | .undefined => .error (.typeError "Cannot read properties of undefined (reading access_token)")
      | _ =>
        match userFormatter (jGet d "user") with
        | .error e => .error e
        | .ok u => .ok { tokenValue := jGet d "access_token",
                         tokenType := jGet d "token_type",
                         tokenExpire := jsDate (jGet d "expires_in"),
                         user := u }

/-- `ops.login(email, password)` of the authentication module: validates
both parameters as non-empty strings (local `TypeError` before any
request), posts the credentials unauthenticated via the HTTP core, and
maps the payload into a `UserLoginDTO`.  Because the post carries
`noAuth`, it never reaches the relogin or retry paths, so those
continuations are irrelevant (`postBody_noAuth_indep` below). -/
def loginM (w : World) (email password : JVal) (st : St) :
    Except Err LoginDTO × St :=
  if !isNonEmptyString email then
    (.error (.typeError "Incorrect email parameter given"), st)
  else if !isNonEmptyString password then
    (.error (.typeError "Incorrect password parameter given"), st)
  else
    match postBody reloginUnreached postRetryUnreached w "auth/login"
        [("email", email), ("password", password)] (some { noAuth := true }) st with
    | (.error e, st1) => (.error e, st1)
    | (.ok (res, _), st1) =>
      (loginResultToDTO res, st1)

/-- `Cattr#reloginAutomatically` (lines 207-233): no usable credentials
provider or falsy credentials yield `false`; a throwing
`credentials.get()` propagates (it is outside the try block); errors
thrown by `login` or by `providers.token.set` are caught and yield
`false`; on success the new token is written into the token provider. -/
def reloginAutomatically (w : World) (st : St) : Except Err Bool × St :=
  if !w.hasCredentialsProvider then (.ok false, st)
  else
    match w.credGet with
    | .error _ => (.error .providerError, st)
    | .ok none => (.ok false, st)
    | .ok (some creds) =>
      match loginM w creds.email creds.password st with
      | (.error _, st1) => (.ok false, st1)
      | (.ok dto, st1) =>
        if !w.hasTokenProvider then (.ok false, st1)
        else if w.tokenSetFails then (.ok false, st1)
        else (.ok true, { st1 with token := some dto.tokenValue })

/-- `Cattr#get`: `getBody` with `reloginAutomatically` and the retry
self-call unrolled once.  The inner call carries `noRelogin`, so by
`getBody_noRelogin_indep` its own (unreachable) retry continuation is
irrelevant and this equals the recursion of the source. -/
def get (w : World) (url : String) (opts : Option Opts) (st : St) :
    Except Err (Outcome × Option Opts) × St :=
  getBody (reloginAutomatically w)
    (fun u o s => getBody (reloginAutomatically w) getRetryUnreached w u o s)
    w url opts st

/-- `Cattr#post`, unrolled like `get`. -/
def post (w : World) (url : String) (body : List (String × JVal)) (opts : Option Opts)
    (st : St) : Except Err (Outcome × Option Opts) × St :=
  postBody (reloginAutomatically w)
    (fun u b o s => postBody (reloginAutomatically w) postRetryUnreached w u b o s)
    w url body opts st

/-- The options object `{ method: m, ...opts }` built by `put`/`patch`
(the spread comes second, so a caller-supplied `method` wins). -/
def spreadWithMethod (m : String) (opts : Option Opts) : Opts :=
  let o := opts.getD {}
  { o with method := some (o.method.getD m) }

/-- `Cattr#put` (lines 556-560). -/
def put (w : World) (url : String) (body : List (String × JVal)) (opts : Option Opts)
    (st : St) : Except Err (Outcome × Option Opts) × St :=
  post w url body (some (spreadWithMethod "put" opts)) st

/-- `Cattr#patch` (lines 544-548). -/
def patch (w : World) (url : String) (body : List (String × JVal)) (opts : Option Opts)
    (st : St) : Except Err (Outcome × Option Opts) × St :=
  post w url body (some (spreadWithMethod "patch" opts)) st

/-- `Cattr#isCattrInstance` (lines 251-256): unauthenticated probe of
`/status`, accepting a truthy `amazingtime` or `cattr` field of the
payload's `data` record (the source returns the truthy field value
itself; it is modelled by its truthiness). -/
def isCattrInstance (w : World) (st : St) : Except Err Bool × St :=
  match get w "/status" (some { noAuth := true }) st with
  | (.error e, st1) => (.error e, st1)
  | (.ok (res, _), st1) =>
    match res with
    | .failure _ _ _ => (.ok false, st1)
    | .success resp =>
      match jGetE resp "data" with
      | .error e => (.error e, st1)
      | .ok d =>
        match d with
        | .null => (.error (.typeError "Cannot read properties of null (reading amazingtime)"), st1)
        | .undefined => (.error (.typeError "Cannot read properties of undefined (reading amazingtime)"), st1)
        | _ => (.ok (jTruthy (jGet d "amazingtime") || jTruthy (jGet d "cattr")), st1)

/-- `Cattr#ping` (lines 240-244). -/
def ping (w : World) (st : St) : Except Err Bool × St := isCattrInstance w st

/-- First occurrence of `marker` in a character list (the semantics of
`indexOf`): returns the text before the marker and the text after it. -/
def splitFirst (marker : List Char) : List Char → Option (List Char × List Char)
  | [] => none
  | c :: cs =>
    if isPrefixOfL marker (c :: cs) then some ([], (c :: cs).drop marker.length)
    else match splitFirst marker cs with
      | some (pre, rest) => some (c :: pre, rest)
      | none => none

/-- `urlString.indexOf("://") !== -1`. -/
def hasScheme (s : String) : Bool := (splitFirst "://".toList s.toList).isSome

/-- Model of a WHATWG `URL` object, restricted to the components the SDK
uses (query and fragment never occur on the probed URLs). -/
structure URLM where
  scheme : String
  host : String
  pathname : String

/-- `url.href`. -/
def URLM.href (u : URLM) : String := u.scheme ++ "://" ++ u.host ++ u.pathname

/-- `new URL(s)` for the simple absolute URLs the SDK constructs: scheme
up to the first `://`, host up to the first following `/`, and the
remainder as the pathname (a bare host normalises to pathname `/`). -/
def parseURL (s : String) : Except Err URLM :=
  match splitFirst "://".toList s.toList with
  | none => .error (.typeError "Invalid URL")
  | some (schemeCs, rest) =>
    match splitFirst (['/'] : List Char) rest with
    | none => .ok { scheme := ⟨schemeCs⟩, host := ⟨rest⟩, pathname := "/" }
    | some (hostCs, pathRest) =>
      .ok { scheme := ⟨schemeCs⟩, host := ⟨hostCs⟩, pathname := ⟨'/' :: pathRest⟩ }

/-- The `cattrExistsOnHostname` closure of `setBaseUrl` (line 174):
`typeof res.response?.data === "object" && res.response.data.cattr`.
Note that it accepts only the `cattr` marker field, and that a `null`
`data` passes the `typeof` guard and then throws on the member access. -/
def cattrExistsOnHostname (res : Outcome) : Except Err Bool :=
  match res with
  | .failure _ _ _ => .ok false
  | .success resp =>
    match jGet resp "data" with
    | .null => .error (.typeError "Cannot read properties of null (reading cattr)")
    | .obj fs => .ok (jTruthy (jGet (.obj fs) "cattr"))
    | _ => .ok false

/-- The `checkStatusUrl` closure of `setBaseUrl` (lines 156-172): clear
the configured base URL, probe `<baseUrl>status` unauthenticated with a
5s timeout, and (when `throwError`) convert a failure outcome into a
thrown `NetworkError`/`ApiError`. -/
def checkStatusUrl (w : World) (baseUrl : String) (throwErr : Bool) (st : St) :
    Except Err Outcome × St :=
  let st' := { st with baseURL := some "" }
  match get w (baseUrl ++ "status") (some { noAuth := true, timeout := some 5000 }) st' with
  | (.error e, st1) => (.error e, st1)
  | (.ok (res, _), st1) =>
    match res with
    | .failure isNet _ _ =>
      if throwErr then
        if isNet then (.error (.networkErrorOf res), st1)
        else (.error (.apiErrorOf res), st1)
      else (.ok res, st1)
    | .success _ => (.ok res, st1)

/-- `Cattr#setBaseUrl` (lines 140-200): default the scheme to `https`,
probe `<root>/status`, accept the root on confirmation (or `force`),
otherwise probe `<root>/api/status` and accept the root with `api`
appended to the path, otherwise throw
`new ApiError({statusCode: 404, ...})`. -/
def setBaseUrl (w : World) (urlString : String) (force : Bool) (st : St) :
    Except Err Bool × St :=
  let urlString' := if !hasScheme urlString then "https://" ++ urlString else urlString
  match parseURL urlString' with
  | .error e => (.error e, st)
  | .ok url =>
    match checkStatusUrl w url.href false st with
    | (.error e, st1) => (.error e, st1)
    | (.ok res, st1) =>
      match cattrExistsOnHostname res with
      | .error e => (.error e, st1)
      | .ok ex1 =>
        if force || ex1 then (.ok true, { st1 with baseURL := some url.href })
        else
          match checkStatusUrl w (url.href ++ "api/") true st1 with
          | (.error e, st2) => (.error e, st2)
          | (.ok res2, st2) =>
            match cattrExistsOnHostname res2 with
            | .error e => (.error e, st2)
            | .ok ex2 =>
              if ex2 then
                (.ok true, { st2 with
                  baseURL := some (URLM.href { url with pathname := url.pathname ++ "api" }) })
              else
                (.error (.apiErrorObj 404 "Cattr is not found on this hostname"
                    (outcomeContext res2)), st2)

/-- `ops.getSingleClickRedirection()` of the authentication module:
fetch a desktop key, require token type `desktop`, reject a redirection
origin whose scheme is not `http`/`https`, and otherwise return the
redirection URL. -/
def getSingleClickRedirection (w : World) (st : St) : Except Err String × St :=
  match get w "auth/desktop-key" (some {}) st with
  | (.error e, st1) => (.error e, st1)
  | (.ok (res, _), st1) =>
    match res with
    | .failure isNet _ _ =>
      if isNet then (.error (.networkErrorOf res), st1)
      else (.error (.apiErrorOf res), st1)
    | .success resp =>
      match jGetE resp "data" with
      | .error e => (.error e, st1)
      | .ok d =>
        match d with
        | .null => (.error (.typeError "Cannot destructure property access_token of null"), st1)
        | .undefined => (.error (.typeError "Cannot destructure property access_token of undefined"), st1)
        | _ =>
          let token := jGet d "access_token"
          let ty := jGet d "token_type"
          let origin := jGet resp "frontend_uri"
          if !jvalStrEq ty "desktop" then
            (.error (.plainError ("Unexpected token type for a single-click auth: "
                ++ jDisplay ty)), st1)
          else
            match parseURL (jDisplay origin) with
            | .error e => (.error e, st1)
            | .ok originParsed =>
              if !(originParsed.scheme == "http" || originParsed.scheme == "https") then
                (.error (.plainError
                    ("Rejecting received SSO redirection URL due to restricted protocol: "
                     ++ originParsed.scheme ++ ":")), st1)
              else
                (.ok (jDisplay origin ++ "/auth/desktop/login?token=" ++ jDisplay token), st1)

/-- `ops.authenticateViaSSO(token)` of the authentication module:
validate the token as a non-empty string, `PUT auth/desktop-key`
unauthenticated with a `desktop` authorization header, and map the
payload into a `UserLoginDTO`.  It performs no check of any redirection
origin or scheme. -/
def authenticateViaSSO (w : World) (token : JVal) (st : St) :
    Except Err LoginDTO × St :=
  if !isNonEmptyString token then
    (.error (.typeError "Incorrect token parameter given"), st)
  else
    match put w "auth/desktop-key" []
        (some { noAuth := true,
                headers := some [("Authorization", .str ("desktop " ++ jDisplay token))] }) st with
    | (.error e, st1) => (.error e, st1)
    | (.ok (res, _), st1) => (loginResultToDTO res, st1)

/-!
Concrete scenario material shared by the claim theorems: a standard world
configuration (working providers with fixed stored credentials), the
backend's reply to a successful `auth/login`, and 401 error payloads.
-/

/-- A world with both providers installed, stored credentials
`user@example.com` / `pw`, a working token write and SDK version `0.0.0`,
over an arbitrary transport oracle. -/
def mkWorld (tr : Nat → TResp) : World :=
  { transport := tr, hasTokenProvider := true, hasCredentialsProvider := true,
    credGet := .ok (some { email := .str "user@example.com", password := .str "pw" }),
    tokenSetFails := false, npmVersion := "0.0.0" }

/-- Initial state holding a stored token `tok0`. -/
def stTok : St := { token := some (.str "tok0") }

/-- A 401 error body carrying the machine error code `c`. -/
def code401 (c : String) : JVal := .obj [("code", .str c)]

/-- A successful `auth/login` payload issuing the fresh token `tok2`. -/
def loginOkResp : JVal :=
  .obj [("data", .obj [("access_token", .str "tok2"), ("token_type", .str "bearer"),
    ("expires_in", .str "2026-01-01"), ("user", .obj [("id", .num 1)])])]

/-- Transport script for the retry scenario: first a 401 with code `c1`,
then the login success, then a 401 with code `c2`. -/
def trRetry (c1 c2 : String) : Nat → TResp := fun n =>
  if n = 0 then .httpErr 401 (code401 c1)
  else if n = 1 then .ok loginOkResp
  else .httpErr 401 (code401 c2)

/-- The `auth/login` request that `reloginAutomatically` issues under
`mkWorld`. -/
def authLoginReq : HttpReq :=
  { method := "post", url := "auth/login",
    headers := [("X-Requested-With", .str "Cattr-Node/v0.0.0")],
    data := some [("email", .str "user@example.com"), ("password", .str "pw")] }

/-- `true` iff the options' `method` override (if any) is one of the
supported write verbs, i.e. `post` does not throw its method
`TypeError`. -/
def methodFieldOk (opts : Option Opts) : Bool :=
  match optsMethodVal opts with
  | some m => m == "post" || m == "put" || m == "patch"
  | none => true

/-- A backend reply to `PUT auth/desktop-key` whose `frontend_uri` is
`origin`, used to exhibit that `authenticateViaSSO` ignores the
redirection origin entirely. -/
def ssoRespWith (origin : JVal) : JVal :=
  .obj [("data", .obj [("access_token", .str "A"), ("token_type", .str "bearer"),
    ("expires_in", .str "2026-01-01"), ("user", .obj [("id", .num 7)])]),
    ("frontend_uri", origin)]

/-- A backend reply to `GET auth/desktop-key` with a `desktop`-typed token
and `frontend_uri` equal to `uri`. -/
def scRespWith (uri : String) : JVal :=
  .obj [("data", .obj [("access_token", .str "A"), ("token_type", .str "desktop")]),
    ("frontend_uri", .str uri)]

/-- A world whose transport always fails without a response, with no
credentials provider installed. -/
def wNoCred : World :=
  { mkWorld (fun _ => TResp.netErr) with hasCredentialsProvider := false }

/-- A world with no token provider installed. -/
def wNoTok : World :=
  { mkWorld (fun _ => TResp.netErr) with hasTokenProvider := false }

/-- A world whose credentials provider's `get` throws. -/
def wCredThrow : World :=
  { mkWorld (fun _ => TResp.netErr) with credGet := .error () }

/-- A legacy backend's status payload: only the `amazingtime` marker. -/
def legacyPayload : JVal := .obj [("data", .obj [("amazingtime", .bool true)])]

/-- A world whose transport always answers with the legacy payload. -/
def wLegacy : World := mkWorld (fun _ => .ok legacyPayload)

/-- A world answering `auth/desktop-key` with a `file://` redirection
origin in its payload. -/
def wSSOFile : World := mkWorld (fun _ => .ok (ssoRespWith (.str "file:///evil")))

/-- A world confirming the backend only under the `/api/` suffix: the
first probe finds no marker, every later one does. -/
def wApi3 : World := mkWorld (fun n =>
  if n = 0 then .ok (.obj [("data", .obj [("other", .bool true)])])
  else .ok (.obj [("data", .obj [("cattr", .bool true)])]))

/-- A world whose transport always rejects with an HTTP 500. -/
def wErr500 : World := mkWorld (fun _ => .httpErr 500 (.obj [("code", .str "x")]))

/-!
Soundness of the bounded unrolling: a call whose options carry
`noRelogin` returns before every use of its `relogin`/`retry`
continuations, and a `noAuth` call likewise never reaches them, so the
placeholder continuations of `get`, `post` and `loginM` are semantically
irrelevant and the unrolled definitions coincide with the source's
flag-guarded recursion.
-/

theorem getBody_noRelogin_indep (r r' : St → Except Err Bool × St)
    (t t' : String → Option Opts → St → Except Err (Outcome × Option Opts) × St)
    (w : World) (u : String) (opts : Option Opts) (st : St)
    (h : optsNoRelogin opts = true) :
    getBody r t w u opts st = getBody r' t' w u opts st := by
  simp [getBody, authStep, catchStep, h]

theorem postBody_noRelogin_indep (r r' : St → Except Err Bool × St)
    (t t' : String → List (String × JVal) → Option Opts → St →
      Except Err (Outcome × Option Opts) × St)
    (w : World) (u : String) (b : List (String × JVal)) (opts : Option Opts) (st : St)
    (h : optsNoRelogin opts = true) :
    postBody r t w u b opts st = postBody r' t' w u b opts st := by
  simp [postBody, postAfterMethodCheck, authStep, catchStep, h]

theorem postBody_noAuth_indep (r r' : St → Except Err Bool × St)
    (t t' : String → List (String × JVal) → Option Opts → St →
      Except Err (Outcome × Option Opts) × St)
    (w : World) (u : String) (b : List (String × JVal)) (opts : Option Opts) (st : St)
    (h : optsNoAuth opts = true) :
    postBody r t w u b opts st = postBody r' t' w u b opts st := by
  simp [postBody, postAfterMethodCheck, authStep, catchStep, h]

/-!
Auxiliary lemmas: the transport/relogin behaviour under an
all-network-error world, string and URL-parsing facts for `setBaseUrl`,
and the propagation of the redacted request context through the `post`
control flow.
-/

/-- A failing `auth/login` under the all-network-error world issues
exactly the `auth/login` request. -/
theorem loginM_netErr (st : St) :
    (loginM (mkWorld (fun _ => TResp.netErr)) (.str "user@example.com") (.str "pw") st).2 =
      { st with calls := st.calls + 1, log := st.log ++ [authLoginReq] } := rfl

/-- Automatic relogin under the all-network-error world reports failure
after issuing exactly the `auth/login` request. -/
theorem reloginAutomatically_netErr (st : St) :
    reloginAutomatically (mkWorld (fun _ => TResp.netErr)) st =
      (.ok false, { st with calls := st.calls + 1, log := st.log ++ [authLoginReq] }) := rfl

/-- String concatenation is associative. -/
theorem strAssoc (a b c : String) : a ++ b ++ c = a ++ (b ++ c) :=
  congrArg String.mk (List.append_assoc a.data b.data c.data)

/-- `indexOf("://")` on a string starting with `https://` splits at that
marker, for every tail. -/
theorem splitFirst_https (l : List Char) :
    splitFirst "://".toList ("https://".toList ++ l) = some ("https".toList, l) := rfl

/-- A text without `/` has no first occurrence of `/`. -/
theorem splitFirst_slash_none :
    ∀ l : List Char, (∀ c ∈ l, c ≠ '/') → splitFirst (['/'] : List Char) l = none := by
  intro l h
  induction l with
  | nil => rfl
  | cons c cs ih =>
    have hc : ('/' == c) = false := by
      simp [beq_eq_false_iff_ne]
      exact fun e => h c (List.mem_cons_self c cs) e.symm
    have ih' := ih (fun x hx => h x (List.mem_cons_of_mem c hx))
    simp [splitFirst, isPrefixOfL, hc, ih']

/-- Parsing `https://<host>` for a slash-free host yields scheme `https`,
that host, and the normalised root pathname. -/
theorem parseURL_host (hst : String) (hn : ∀ c ∈ hst.data, c ≠ '/') :
    parseURL ("https://" ++ hst) = .ok { scheme := "https", host := hst, pathname := "/" } := by
  have e1 : ("https://" ++ hst).toList = "https://".toList ++ hst.toList := by
    simp [String.toList]
  unfold parseURL
  rw [e1, splitFirst_https]
  simp [splitFirst_slash_none hst.data hn]

/-- The early `CredentialsError` outcomes of the authentication section
carry no request context. -/
theorem authStep_inr_ctx (r : St → Except Err Bool × St) (w : World) (opts : Option Opts)
    (hd : List (String × JVal)) (m : String) (st : St) (out : Outcome) (st1 : St)
    (hres : authStep r w opts hd m st = (.ok (.inr out), st1)) :
    outcomeContext out = none := by
  unfold authStep at hres
  repeat' split at hres
  all_goals simp_all [outcomeContext]
  all_goals (obtain ⟨h1, h2⟩ := hres; rw [← h1])

/-- Every ok-failure outcome of the catch branch carries either the
passed context or a context produced by the retry continuation with the
same payload. -/
theorem catchStep_payload (r : St → Except Err Bool × St)
    (rt : Option Opts → St → Except Err (Outcome × Option Opts) × St)
    (opts : Option Opts) (ctx : Ctx) (resp : Option (Nat × JVal)) (st : St)
    (hrt : ∀ o' s' out o2 s2 n e c, rt o' s' = (.ok (out, o2), s2) →
      out = .failure n e (some c) → c.payload = ctx.payload)
    (out : Outcome) (o2 : Option Opts) (st2 : St) (n : Bool) (e : ErrVal) (c : Ctx)
    (hres : catchStep r rt opts ctx resp st = (.ok (out, o2), st2))
    (hout : out = Outcome.failure n e (some c)) : c.payload = ctx.payload := by
  subst hout
  unfold catchStep at hres
  repeat' split at hres
  all_goals simp only [Prod.mk.injEq, Except.ok.injEq, Outcome.failure.injEq,
    Option.some.injEq] at hres
  all_goals first
    | (obtain ⟨⟨⟨h1, h2, h3⟩, h4⟩, h5⟩ := hres; rw [← h3])
    | (exact hrt _ _ _ _ _ _ _ _ (by assumption) hres.1.1)
    | (exact absurd hres.1 (by simp))

/-- Every ok-failure-with-context outcome of the request phase of `post`
carries the redacted payload of the body. -/
theorem postAfterMethodCheck_payload (r : St → Except Err Bool × St)
    (rt : String → List (String × JVal) → Option Opts → St →
      Except Err (Outcome × Option Opts) × St)
    (w : World) (u : String) (b : List (String × JVal)) (opts : Option Opts)
    (hd : List (String × JVal)) (st : St)
    (hrt : ∀ u' b' o' s' out o2 s2 n e c, rt u' b' o' s' = (.ok (out, o2), s2) →
      out = .failure n e (some c) → c.payload = some (redactPayload b'))
    (out : Outcome) (o2 : Option Opts) (st2 : St) (n : Bool) (e : ErrVal) (c : Ctx)
    (hres : postAfterMethodCheck r rt w u b opts hd st = (.ok (out, o2), st2))
    (hout : out = Outcome.failure n e (some c)) :
    c.payload = some (redactPayload b) := by
  unfold postAfterMethodCheck at hres
  split at hres
  · exact absurd hres (by simp)
  · rename_i st1 hauth
    have hctx := authStep_inr_ctx _ _ _ _ _ _ _ _ hauth
    simp only [Prod.mk.injEq, Except.ok.injEq] at hres
    rw [hres.1.1, hout] at hctx
    simp [outcomeContext] at hctx
  · dsimp only at hres
    split at hres
    · simp only [Prod.mk.injEq, Except.ok.injEq] at hres
      rw [hout] at hres
      exact absurd hres.1.1 (by simp)
    · exact catchStep_payload _ _ _ _ _ _
        (fun o' s' out' o2' s2' n' e' c' hr ho => hrt u b o' s' out' o2' s2' n' e' c' hr ho)
        _ _ _ _ _ _ hres hout
    · exact catchStep_payload _ _ _ _ _ _
        (fun o' s' out' o2' s2' n' e' c' hr ho => hrt u b o' s' out' o2' s2' n' e' c' hr ho)
        _ _ _ _ _ _ hres hout

/-- As `postAfterMethodCheck_payload`, for the full `post` body. -/
theorem postBody_payload (r : St → Except Err Bool × St)
    (rt : String → List (String × JVal) → Option Opts → St →
      Except Err (Outcome × Option Opts) × St)
    (w : World) (u : String) (b : List (String × JVal)) (opts : Option Opts) (st : St)
    (hrt : ∀ u' b' o' s' out o2 s2 n e c, rt u' b' o' s' = (.ok (out, o2), s2) →
      out = .failure n e (some c) → c.payload = some (redactPayload b'))
    (out : Outcome) (o2 : Option Opts) (st2 : St) (n : Bool) (e : ErrVal) (c : Ctx)
    (hres : postBody r rt w u b opts st = (.ok (out, o2), st2))
    (hout : out = Outcome.failure n e (some c)) :
    c.payload = some (redactPayload b) := by
  unfold postBody at hres
  dsimp only at hres
  repeat' split at hres
  all_goals first
    | (exact absurd hres (by simp))
    | (exact postAfterMethodCheck_payload _ _ _ _ _ _ _ _ hrt _ _ _ _ _ _ hres hout)

/-- Every failure outcome of `post` that carries a request context
carries the redacted payload of the body. -/
theorem post_payload (w : World) (u : String) (b : List (String × JVal))
    (opts : Option Opts) (st : St)
    (out : Outcome) (o2 : Option Opts) (st2 : St) (n : Bool) (e : ErrVal) (c : Ctx)
    (hres : post w u b opts st = (.ok (out, o2), st2))
    (hout : out = Outcome.failure n e (some c)) :
    c.payload = some (redactPayload b) := by
  have hstub : ∀ (u' : String) (b' : List (String × JVal)) o' s' out' o2' s2' n' e'
      (c' : Ctx), postRetryUnreached u' b' o' s' = (.ok (out', o2'), s2') →
      out' = Outcome.failure n' e' (some c') → c'.payload = some (redactPayload b') := by
    intro u' b' o' s' out' o2' s2' n' e' c' hr _
    exact absurd hr (by simp [postRetryUnreached])
  unfold Cattr.post at hres
  exact postBody_payload _ _ _ _ _ _ _
    (fun u' b' o' s' out' o2' s2' n' e' c' hr ho =>
      postBody_payload _ _ _ _ _ _ _ hstub _ _ _ _ _ _ hr ho)
    _ _ _ _ _ _ hres hout

/-!
The claim theorems.
-/

/-- C1: a `get`/`post` receiving HTTP 401 with machine error code
`authorization.unauthorized` or `authorization.token_expired` (with
`noRelogin` not set) re-authenticates once and re-issues the identical
request (same method, URL and body) exactly once with `noRelogin` set;
when the re-issued request fails again with such a 401, that error is
reported as the failure outcome with no further retry and no second
re-authentication: exactly three transport calls occur (original
request, `auth/login`, re-issued request). -/
theorem C1_single_retry (url : String) (b : List (String × JVal)) (c1 c2 : String)
    (hc1 : c1 = "authorization.unauthorized" ∨ c1 = "authorization.token_expired")
    (hc2 : c2 = "authorization.unauthorized" ∨ c2 = "authorization.token_expired") :
    get (mkWorld (trRetry c1 c2)) url (some {}) stTok =
      (.ok (.failure false (.transport (some (401, code401 c2)))
              (some { url := url, method := "get" }),
          some { noRelogin := true }),
       { token := some (.str "tok2"), baseURL := none, calls := 3,
         log := [{ method := "get", url := url,
                   headers := [("Authorization", .str "Bearer tok0")] },
                 authLoginReq,
                 { method := "get", url := url,
                   headers := [("Authorization", .str "Bearer tok2")] }] })
    ∧
    get (mkWorld (trRetry c1 c2)) url none stTok =
      (.ok (.failure false (.transport (some (401, code401 c2)))
              (some { url := url, method := "get" }), none),
       { token := some (.str "tok2"), baseURL := none, calls := 3,
         log := [{ method := "get", url := url,
                   headers := [("Authorization", .str "Bearer tok0")] },
                 authLoginReq,
                 { method := "get", url := url,
                   headers := [("Authorization", .str "Bearer tok2")] }] })
    ∧
    post (mkWorld (trRetry c1 c2)) url b (some {}) stTok =
      (.ok (.failure false (.transport (some (401, code401 c2)))
              (some { url := url, payload := some (redactPayload b), method := "post" }),
          some { noRelogin := true }),
       { token := some (.str "tok2"), baseURL := none, calls := 3,
         log := [{ method := "post", url := url,
                   headers := [("X-Requested-With", .str "Cattr-Node/v0.0.0"),
                               ("Authorization", .str "Bearer tok0")], data := some b },
                 authLoginReq,
                 { method := "post", url := url,
                   headers := [("X-Requested-With", .str "Cattr-Node/v0.0.0"),
                               ("Authorization", .str "Bearer tok2")], data := some b }] }) := by
  rcases hc1 with h1 | h1 <;> rcases hc2 with h2 | h2 <;> subst h1 <;> subst h2 <;>
    exact ⟨rfl, rfl, rfl⟩

/-- C1 witness: `C1_single_retry` at `url := "tasks"`, an empty body and
the two concrete error codes; the originating call performs exactly
three transport calls. -/
theorem C1_single_retry_witness :
    (get (mkWorld (trRetry "authorization.unauthorized" "authorization.token_expired"))
        "tasks" (some {}) stTok).2.calls = 3 :=
  congrArg (fun r => r.2.calls)
    (C1_single_retry "tasks" [] _ _ (Or.inl rfl) (Or.inr rfl)).1

/-- C2 counterexample: with no token, stored credentials present, and the
login attempt failing on a network error, `get` resolves to the
`CredentialsError` outcome the claim describes — but a transport request
(the re-authentication `auth/login` call) HAS been issued, contradicting
the claim that no request is issued through the transport. -/
theorem C2_counterexample :
    (get (mkWorld (fun _ => TResp.netErr)) "tasks" none { token := none }).1 =
      .ok (.failure false (.credentials 401 "authorization.unauthorized"
          "Token proivder returned nothing, and relogin is failed") none, none) ∧
    (get (mkWorld (fun _ => TResp.netErr)) "tasks" none { token := none }).2.log =
      [authLoginReq] :=
  ⟨rfl, rfl⟩

/-- C2 (amended): with authentication enabled and no token, when
re-authentication is unavailable (no credentials provider, or no stored
credentials) `get`/`post` resolve to a `CredentialsError` failure with no
transport call at all; when the login attempt itself fails, they resolve
to the same `CredentialsError` failure and the only transport request
issued is the re-authentication `auth/login` call — the originating
request is never issued through the transport. -/
theorem C2_amended (w : World) (url : String) (b : List (String × JVal))
    (opts : Option Opts) (st : St)
    (htp : w.hasTokenProvider = true) (hna : optsNoAuth opts = false)
    (hnr : optsNoRelogin opts = false) (htok : st.token = none)
    (hm : methodFieldOk opts = true) :
    (w.hasCredentialsProvider = false →
      get w url opts st = (.ok (.failure false (.credentials 401 "authorization.unauthorized"
          "Token proivder returned nothing, and relogin is failed") none, opts), st) ∧
      post w url b opts st = (.ok (.failure false (.credentials 401 "authorization.unauthorized"
          "Token provider returned nothing, and relogin is failed") none, opts), st))
    ∧
    (w.credGet = .ok none →
      get w url opts st = (.ok (.failure false (.credentials 401 "authorization.unauthorized"
          "Token proivder returned nothing, and relogin is failed") none, opts), st) ∧
      post w url b opts st = (.ok (.failure false (.credentials 401 "authorization.unauthorized"
          "Token provider returned nothing, and relogin is failed") none, opts), st))
    ∧
    (get (mkWorld (fun _ => TResp.netErr)) url opts st =
      (.ok (.failure false (.credentials 401 "authorization.unauthorized"
          "Token proivder returned nothing, and relogin is failed") none, opts),
       { st with calls := st.calls + 1, log := st.log ++ [authLoginReq] }) ∧
     post (mkWorld (fun _ => TResp.netErr)) url b opts st =
      (.ok (.failure false (.credentials 401 "authorization.unauthorized"
          "Token provider returned nothing, and relogin is failed") none, opts),
       { st with calls := st.calls + 1, log := st.log ++ [authLoginReq] })) := by
  have hmw : ∀ tr : Nat → TResp, (mkWorld tr).hasCredentialsProvider = true := fun _ => rfl
  have hmt : ∀ tr : Nat → TResp, (mkWorld tr).hasTokenProvider = true := fun _ => rfl
  have hpost : ∀ (w' : World) (st' : St), post w' url b opts st' =
      postAfterMethodCheck (reloginAutomatically w')
        (fun u b' o s => postBody (reloginAutomatically w') postRetryUnreached w' u b' o s)
        w' url b opts
        (hset (if optsNoPaginate opts then
            hset (if optsAsFormData opts then
                hset (hmerge [] (optsHeaders opts)) "content-type"
                  (.str "multipart/form-data")
              else hmerge [] (optsHeaders opts)) "X-Paginate" (.str "false")
          else (if optsAsFormData opts then
              hset (hmerge [] (optsHeaders opts)) "content-type"
                (.str "multipart/form-data")
            else hmerge [] (optsHeaders opts)))
          "X-Requested-With" (.str ("Cattr-Node/v" ++ w'.npmVersion))) st' := by
    intro w' st'
    rcases hmv : optsMethodVal opts with _ | m
    · simp [Cattr.post, postBody, hmv]
    · simp only [methodFieldOk, hmv] at hm
      rcases Bool.or_eq_true_iff.mp hm with h | h
      · rcases Bool.or_eq_true_iff.mp h with h' | h'
        · simp [Cattr.post, postBody, hmv, beq_iff_eq.mp h']
        · simp [Cattr.post, postBody, hmv, beq_iff_eq.mp h']
      · simp [Cattr.post, postBody, hmv, beq_iff_eq.mp h]
  refine ⟨fun hcp => ⟨?_, ?_⟩, fun hcg => ⟨?_, ?_⟩, ?_, ?_⟩
  · simp [Cattr.get, getBody, authStep, reloginAutomatically, htp, hna, hnr, htok, hcp]
  · rw [hpost]
    simp [postAfterMethodCheck, authStep, reloginAutomatically, htp, hna, hnr, htok, hcp]
  · simp [Cattr.get, getBody, authStep, reloginAutomatically, htp, hna, hnr, htok, hcg]
  · rw [hpost]
    simp [postAfterMethodCheck, authStep, reloginAutomatically, htp, hna, hnr, htok, hcg]
  · simp [Cattr.get, getBody, authStep, hmt, hmw, hna, hnr, htok,
      reloginAutomatically_netErr]
  · rw [hpost]
    simp [postAfterMethodCheck, authStep, hmt, hmw, hna, hnr, htok,
      reloginAutomatically_netErr]

/-- C2 witness: `C2_amended` at a world with no credentials provider; the
call makes no transport request. -/
theorem C2_amended_witness :
    (get wNoCred "tasks" none { token := none }).2.calls = 0 :=
  congrArg (fun r => r.2.calls)
    (((C2_amended wNoCred "tasks" [] none { token := none } rfl rfl rfl rfl rfl).1 rfl).1)

/-- C3 counterexample: with a backend confirmed only at `/api/status`,
`setBaseUrl("example.com")` succeeds but stores the base
`https://example.com/api` — without the trailing slash the claim
specifies. -/
theorem C3_counterexample :
    (setBaseUrl wApi3 "example.com" false { token := none }).1 = .ok true ∧
    (setBaseUrl wApi3 "example.com" false { token := none }).2.baseURL =
      some "https://example.com/api" ∧
    some "https://example.com/api" ≠ some "https://example.com/api/" :=
  ⟨rfl, rfl, by decide⟩

/-- C3 (amended): for every scheme-less hostname, `setBaseUrl` prefixes
`https://` and probes `https://<host>/status`; if that probe's payload
confirms the backend, the stored base is `https://<host>/`; if only the
`https://<host>/api/status` probe confirms, the stored base is
`https://<host>/api` (no trailing slash); if both probes respond but
neither confirms, the call throws the `ApiError` constructed with a 404
not-found status. -/
theorem C3_amended (hst : String) (p1 p2 : JVal) (tk : Option JVal)
    (bu : Option String) (k : Nat) (lg : List HttpReq)
    (hs : hasScheme hst = false) (_hne : hst ≠ "")
    (hn : ∀ c ∈ hst.data, c ≠ '/')
    (hp1 : cattrExistsOnHostname (.success p1) = .ok false)
    (hp2 : cattrExistsOnHostname (.success p2) = .ok true) :
    setBaseUrl (mkWorld (fun _ => .ok p2)) hst false
        { token := tk, baseURL := bu, calls := k, log := lg } =
      (.ok true,
       { token := tk, baseURL := some ("https://" ++ hst ++ "/"), calls := k + 1,
         log := lg ++ [{ method := "get", url := "https://" ++ hst ++ "/status",
                         headers := [] }] })
    ∧
    setBaseUrl (mkWorld (fun n => if n = k then .ok p1 else .ok p2)) hst false
        { token := tk, baseURL := bu, calls := k, log := lg } =
      (.ok true,
       { token := tk, baseURL := some ("https://" ++ hst ++ "/api"), calls := k + 2,
         log := lg ++ [{ method := "get", url := "https://" ++ hst ++ "/status",
                         headers := [] },
                       { method := "get", url := "https://" ++ hst ++ "/api/status",
                         headers := [] }] })
    ∧
    (setBaseUrl (mkWorld (fun _ => .ok p1)) hst false
        { token := tk, baseURL := bu, calls := k, log := lg }).1 =
      .error (.apiErrorObj 404 "Cattr is not found on this hostname" none) := by
  refine ⟨?_, ?_, ?_⟩
  · simp [setBaseUrl, checkStatusUrl, Cattr.get, getBody, authStep, issue, mkWorld,
      optsNoAuth, optsNoPaginate, optsNoRelogin, optsHeaders, hmerge, hset,
      hs, parseURL_host hst hn, hp1, hp2, URLM.href, outcomeContext, strAssoc]
  · simp [setBaseUrl, checkStatusUrl, Cattr.get, getBody, authStep, issue, mkWorld,
      optsNoAuth, optsNoPaginate, optsNoRelogin, optsHeaders, hmerge, hset,
      hs, parseURL_host hst hn, hp1, hp2, URLM.href, outcomeContext, strAssoc]
  · simp [setBaseUrl, checkStatusUrl, Cattr.get, getBody, authStep, issue, mkWorld,
      optsNoAuth, optsNoPaginate, optsNoRelogin, optsHeaders, hmerge, hset,
      hs, parseURL_host hst hn, hp1, hp2, URLM.href, outcomeContext, strAssoc]

/-- C3 witness: `C3_amended` at hostname `example.com` with the backend
confirmed only under `/api/`; the stored base is
`https://example.com/api`. -/
theorem C3_amended_witness :
    (setBaseUrl (mkWorld (fun n => if n = 0 then .ok (.obj [("data", .obj [("other", .bool true)])])
        else .ok (.obj [("data", .obj [("cattr", .bool true)])])))
      "example.com" false { token := none, baseURL := none, calls := 0, log := [] }).2.baseURL =
      some "https://example.com/api" :=
  congrArg (fun r => r.2.baseURL)
    (C3_amended "example.com" (.obj [("data", .obj [("other", .bool true)])])
      (.obj [("data", .obj [("cattr", .bool true)])]) none none 0 []
      rfl (by decide) (by decide) rfl rfl).2.1

/-- C4: for every write call (`post`, `put`, `patch`), any failure
outcome carrying a request context holds a payload of the same length as
the body in which every field whose name includes `screenshot`,
`password`, `secret`, `token` or `api_key` has the fixed `"***"` marker
in place of its value, and every other field is passed through
unchanged. -/
theorem C4_redaction (w : World) (url : String) (b : List (String × JVal))
    (opts : Option Opts) (st : St) (out : Outcome) (o2 : Option Opts) (st2 : St)
    (n : Bool) (e : ErrVal) (c : Ctx) (pl : List (String × JVal))
    (hcall : post w url b opts st = (.ok (out, o2), st2) ∨
             put w url b opts st = (.ok (out, o2), st2) ∨
             patch w url b opts st = (.ok (out, o2), st2))
    (hout : out = Outcome.failure n e (some c)) (hpl : c.payload = some pl) :
    pl.length = b.length ∧
    (∀ k v, (k, v) ∈ pl → sensitiveName k = true → v = JVal.str "***") ∧
    (∀ k v, (k, v) ∈ pl → sensitiveName k = false → (k, v) ∈ b) ∧
    (∀ k v, (k, v) ∈ b → sensitiveName k = false → (k, v) ∈ pl) := by
  have hred : pl = redactPayload b := by
    rcases hcall with h | h | h
    · have hp := post_payload _ _ _ _ _ _ _ _ _ _ _ h hout
      rw [hpl] at hp
      exact Option.some.inj hp
    · rw [Cattr.put] at h
      have hp := post_payload _ _ _ _ _ _ _ _ _ _ _ h hout
      rw [hpl] at hp
      exact Option.some.inj hp
    · rw [Cattr.patch] at h
      have hp := post_payload _ _ _ _ _ _ _ _ _ _ _ h hout
      rw [hpl] at hp
      exact Option.some.inj hp
  subst hred
  refine ⟨List.length_map _ _, ?_, ?_, ?_⟩
  · intro k v hkv hsens
    rcases List.mem_map.mp hkv with ⟨p, hp, hfe⟩
    by_cases hs : sensitiveName p.1 = true
    · rw [if_pos hs] at hfe
      exact (congrArg Prod.snd hfe).symm
    · rw [if_neg hs] at hfe
      rw [congrArg Prod.fst hfe] at hs
      exact absurd hsens hs
  · intro k v hkv hsens
    rcases List.mem_map.mp hkv with ⟨p, hp, hfe⟩
    by_cases hs : sensitiveName p.1 = true
    · rw [if_pos hs] at hfe
      have hk : p.1 = k := congrArg Prod.fst hfe
      rw [hk] at hs
      rw [hs] at hsens
      cases hsens
    · rw [if_neg hs] at hfe
      rw [hfe] at hp
      exact hp
  · intro k v hkv hsens
    have : (if sensitiveName (k, v).1 then ((k, v).1, JVal.str "***") else (k, v)) = (k, v) := by
      rw [if_neg]
      simp [hsens]
    exact this ▸ List.mem_map_of_mem _ hkv

/-- C4 witness: `C4_redaction` at a concrete failing `post` whose body
holds a password field; the error context's payload has the body's
length (with the password replaced by the marker). -/
theorem C4_redaction_witness :
    ([("password", JVal.str "***"), ("note", JVal.str "n")] : List (String × JVal)).length =
      ([("password", JVal.str "hunter2"), ("note", JVal.str "n")] : List (String × JVal)).length :=
  (C4_redaction wErr500 "items" [("password", .str "hunter2"), ("note", .str "n")] none stTok
    (.failure false (.transport (some (500, .obj [("code", .str "x")])))
      (some { url := "items",
              payload := some [("password", .str "***"), ("note", .str "n")],
              method := "post" }))
    none _ false (.transport (some (500, .obj [("code", .str "x")])))
    { url := "items", payload := some [("password", .str "***"), ("note", .str "n")],
      method := "post" }
    [("password", .str "***"), ("note", .str "n")]
    (Or.inl rfl) rfl rfl).1

/-- C5 counterexample: a legacy payload carrying only a truthy
`amazingtime` marker is accepted by `isCattrInstance`, but
`setBaseUrl`'s confirmation (`cattrExistsOnHostname`) rejects it and
`setBaseUrl` fails with the 404 `ApiError` — the two-field acceptance
rule does not extend to `setBaseUrl`. -/
theorem C5_counterexample :
    (isCattrInstance wLegacy stTok).1 = .ok true ∧
    cattrExistsOnHostname (.success legacyPayload) = .ok false ∧
    (setBaseUrl wLegacy "example.com" false { token := none }).1 =
      .error (.apiErrorObj 404 "Cattr is not found on this hostname" none) :=
  ⟨rfl, rfl, rfl⟩

/-- C5 (amended): `isCattrInstance` (and `ping`, which is literally
`isCattrInstance`) accepts a probe payload whose `data` record has a
truthy `cattr` or legacy `amazingtime` field; the identity confirmation
used by `setBaseUrl` accepts only a truthy `cattr` field. -/
theorem C5_amended (fs : List (String × JVal)) (st : St) (w : World) :
    (isCattrInstance (mkWorld (fun _ => .ok (.obj [("data", .obj fs)]))) st).1 =
      .ok (jTruthy (jGet (.obj fs) "amazingtime") || jTruthy (jGet (.obj fs) "cattr"))
    ∧ ping w st = isCattrInstance w st
    ∧ cattrExistsOnHostname (.success (.obj [("data", .obj fs)])) =
      .ok (jTruthy (jGet (.obj fs) "cattr")) :=
  ⟨rfl, rfl, rfl⟩

/-- C6 counterexample: when the credentials provider's own `get` throws,
`reloginAutomatically` throws (the read is outside its try block),
contradicting the claim that it never throws for every provider state. -/
theorem C6_counterexample :
    reloginAutomatically wCredThrow stTok = (.error .providerError, stTok) := rfl

/-- C6 (amended): `reloginAutomatically` returns `false` when the
credentials provider is absent or yields no credentials, returns `false`
when `login` or the token-provider write throws, and on success writes
the new token into the token provider and returns `true`; it never
throws provided the credentials provider's own `get` does not throw. -/
theorem C6_relogin_behaviour :
    (∀ (w : World) (st : St), w.hasCredentialsProvider = false →
      reloginAutomatically w st = (.ok false, st))
    ∧
    (∀ (w : World) (st : St), w.credGet = .ok none →
      reloginAutomatically w st = (.ok false, st))
    ∧
    (∀ (w : World) (st st1 : St) (creds : Creds) (e : Err),
      w.hasCredentialsProvider = true → w.credGet = .ok (some creds) →
      loginM w creds.email creds.password st = (.error e, st1) →
      reloginAutomatically w st = (.ok false, st1))
    ∧
    (∀ (w : World) (st st1 : St) (creds : Creds) (dto : LoginDTO),
      w.hasCredentialsProvider = true → w.credGet = .ok (some creds) →
      loginM w creds.email creds.password st = (.ok dto, st1) →
      w.hasTokenProvider = false ∨ w.tokenSetFails = true →
      reloginAutomatically w st = (.ok false, st1))
    ∧
    (∀ (w : World) (st st1 : St) (creds : Creds) (dto : LoginDTO),
      w.hasCredentialsProvider = true → w.credGet = .ok (some creds) →
      loginM w creds.email creds.password st = (.ok dto, st1) →
      w.hasTokenProvider = true → w.tokenSetFails = false →
      reloginAutomatically w st = (.ok true, { st1 with token := some dto.tokenValue }))
    ∧
    (∀ (w : World) (st : St) (b : Option Creds), w.credGet = .ok b →
      ∃ r st', reloginAutomatically w st = (.ok r, st')) := by
  refine ⟨?_, ?_, ?_, ?_, ?_, ?_⟩
  · intro w st h
    simp [reloginAutomatically, h]
  · intro w st h
    simp [reloginAutomatically, h]
  · intro w st st1 creds e hc hcg hl
    simp [reloginAutomatically, hc, hcg, hl]
  · intro w st st1 creds dto hc hcg hl hd
    rcases hd with h | h
    · simp [reloginAutomatically, hc, hcg, hl, h]
    · simp [reloginAutomatically, hc, hcg, hl, h]
  · intro w st st1 creds dto hc hcg hl ht hts
    simp [reloginAutomatically, hc, hcg, hl, ht, hts]
  · intro w st b hcg
    by_cases hc : w.hasCredentialsProvider = true
    · rcases b with _ | creds
      · exact ⟨false, st, by simp [reloginAutomatically, hc, hcg]⟩
      · rcases hl : loginM w creds.email creds.password st with ⟨res, st1⟩
        rcases res with e | dto
        · exact ⟨false, st1, by simp [reloginAutomatically, hc, hcg, hl]⟩
        · by_cases ht : w.hasTokenProvider = true
          · by_cases hts : w.tokenSetFails = true
            · exact ⟨false, st1, by simp [reloginAutomatically, hc, hcg, hl, ht, hts]⟩
            · exact ⟨true, { st1 with token := some dto.tokenValue },
                by simp [reloginAutomatically, hc, hcg, hl, ht, hts]⟩
          · exact ⟨false, st1, by simp [reloginAutomatically, hc, hcg, hl, ht]⟩
    · exact ⟨false, st, by simp [reloginAutomatically, hc]⟩

/-- C6 witness: `C6_relogin_behaviour` at a world with no credentials
provider. -/
theorem C6_witness :
    reloginAutomatically wNoCred stTok = (.ok false, stTok) :=
  C6_relogin_behaviour.1 wNoCred stTok rfl

/-- C7 counterexample: `authenticateViaSSO` succeeds (does not throw)
even when the backend response carries a `file://` redirection origin —
it performs no origin-scheme check at all, contradicting the claim that
the rejection holds for `authenticateViaSSO`. -/
theorem C7_counterexample :
    (authenticateViaSSO wSSOFile (.str "desktop-token") { token := none }).1.isOk = true :=
  rfl

/-- C7 (amended): `getSingleClickRedirection` throws a rejection error
before returning the redirection URL whenever the `frontend_uri` origin
parses with a scheme other than `http`/`https`; `authenticateViaSSO`
consumes the desktop token and performs no origin check (its flow
constructs no redirection URL), succeeding regardless of any
`frontend_uri` in the payload. -/
theorem C7_amended (uri : String) (tv : JVal) (bu : Option String) (k : Nat)
    (lg : List HttpReq) (pu : URLM)
    (hp : parseURL uri = .ok pu)
    (h1 : pu.scheme ≠ "http") (h2 : pu.scheme ≠ "https") :
    getSingleClickRedirection (mkWorld (fun _ => .ok (scRespWith uri)))
        { token := some tv, baseURL := bu, calls := k, log := lg } =
      (.error (.plainError
          ("Rejecting received SSO redirection URL due to restricted protocol: "
           ++ pu.scheme ++ ":")),
       { token := some tv, baseURL := bu, calls := k + 1,
         log := lg ++
           [{ method := "get", url := "auth/desktop-key",
              headers := [("Authorization", .str ("Bearer " ++ jDisplay tv))] }] })
    ∧
    (∀ (origin : JVal) (st' : St),
      (authenticateViaSSO (mkWorld (fun _ => .ok (ssoRespWith origin))) (.str "tok") st').1.isOk
        = true) := by
  constructor
  · simp [getSingleClickRedirection, Cattr.get, getBody, authStep, issue, catchStep,
      mkWorld, scRespWith, jGetE, jGet, jvalStrEq, List.lookup, optsNoAuth,
      optsNoPaginate, optsNoRelogin, optsHeaders, hmerge, hset, jDisplay,
      hp, h1, h2]
  · intro origin st'
    rfl

/-- C7 witness: `C7_amended` at a `file:///evil` origin; the operation
throws the protocol-rejection error. -/
theorem C7_amended_witness :
    (getSingleClickRedirection (mkWorld (fun _ => .ok (scRespWith "file:///evil")))
        { token := some (.str "t"), baseURL := none, calls := 0, log := [] }).1 =
      .error (.plainError
        "Rejecting received SSO redirection URL due to restricted protocol: file:") :=
  congrArg (fun r => r.1)
    (C7_amended "file:///evil" (.str "t") none 0 [] { scheme := "file", host := "", pathname := "/evil" }
      rfl (by decide) (by decide)).1

/-- C8: `login(email, password)` with an argument that is not a
non-empty string fails with the corresponding local `TypeError` and
leaves the state untouched — no request reaches the HTTP core or the
transport. -/
theorem C8_login_validation :
    (∀ (w : World) (email password : JVal) (st : St), isNonEmptyString email = false →
      loginM w email password st = (.error (.typeError "Incorrect email parameter given"), st))
    ∧
    (∀ (w : World) (email password : JVal) (st : St), isNonEmptyString email = true →
      isNonEmptyString password = false →
      loginM w email password st =
        (.error (.typeError "Incorrect password parameter given"), st)) := by
  constructor
  · intro w email password st h
    simp [loginM, h]
  · intro w email password st h1 h2
    simp [loginM, h1, h2]

/-- C8 witness: `C8_login_validation` at `login("", "x")` and
`login("a@b.com", "")`. -/
theorem C8_witness :
    loginM (mkWorld (fun _ => TResp.netErr)) (.str "") (.str "x") stTok =
      (.error (.typeError "Incorrect email parameter given"), stTok) ∧
    loginM (mkWorld (fun _ => TResp.netErr)) (.str "a@b.com") (.str "") stTok =
      (.error (.typeError "Incorrect password parameter given"), stTok) :=
  ⟨C8_login_validation.1 _ _ _ _ rfl, C8_login_validation.2 _ _ _ _ rfl rfl⟩

/-- C9: with authentication enabled and no token provider installed,
`get` and `post` throw a `TypeError` (the promise rejects) instead of
resolving to an Outcome, leaving the state untouched. -/
theorem C9_missing_token_provider (w : World) (url : String) (b : List (String × JVal))
    (opts : Option Opts) (st : St)
    (htp : w.hasTokenProvider = false) (hna : optsNoAuth opts = false)
    (hm : methodFieldOk opts = true) :
    get w url opts st =
      (.error (.typeError "Cannot read properties of null (reading get)"), st) ∧
    post w url b opts st =
      (.error (.typeError "Cannot read properties of null (reading get)"), st) := by
  constructor
  · simp [Cattr.get, getBody, authStep, htp, hna]
  · rcases hmv : optsMethodVal opts with _ | m
    · simp [Cattr.post, postBody, postAfterMethodCheck, authStep, hmv, htp, hna]
    · simp only [methodFieldOk, hmv] at hm
      rcases Bool.or_eq_true_iff.mp hm with h | h
      · rcases Bool.or_eq_true_iff.mp h with h' | h'
        · simp [Cattr.post, postBody, postAfterMethodCheck, authStep, hmv, htp, hna,
            beq_iff_eq.mp h']
        · simp [Cattr.post, postBody, postAfterMethodCheck, authStep, hmv, htp, hna,
            beq_iff_eq.mp h']
      · simp [Cattr.post, postBody, postAfterMethodCheck, authStep, hmv, htp, hna,
          beq_iff_eq.mp h]

/-- C9 witness: `C9_missing_token_provider` at a world with no token
provider. -/
theorem C9_witness :
    (get wNoTok "tasks" none { token := none }).1 =
      .error (.typeError "Cannot read properties of null (reading get)") :=
  congrArg (fun r => r.1)
    (C9_missing_token_provider wNoTok "tasks" [] none { token := none } rfl rfl rfl).1

/-- C10: the retry path of `get`/`post` mutates the caller-supplied
options object in place (`Object.assign(opts, { noRelogin: true })`), so
the object comes back with `noRelogin` set; a later call reusing that
object has automatic re-authentication suppressed: a missing token
yields the relogin-disabled `CredentialsError` with no transport call at
all, and a recoverable 401 is passed through after a single transport
call with no re-authentication. -/
theorem C10_opts_mutation (url url2 : String) (b : List (String × JVal))
    (hs : Option (List (String × JVal))) (np af : Bool) (mth : Option String)
    (tm : Option Nat) :
    (get (mkWorld (trRetry "authorization.unauthorized" "authorization.unauthorized")) url
        (some { headers := hs, noAuth := false, noPaginate := np, noRelogin := false,
                asFormData := af, method := mth, timeout := tm }) stTok).1 =
      .ok (.failure false (.transport (some (401, code401 "authorization.unauthorized")))
              (some { url := url, method := "get" }),
          some { headers := hs, noAuth := false, noPaginate := np, noRelogin := true,
                 asFormData := af, method := mth, timeout := tm })
    ∧
    (post (mkWorld (trRetry "authorization.unauthorized" "authorization.unauthorized")) url b
        (some { headers := hs, noAuth := false, noPaginate := np, noRelogin := false,
                asFormData := af, method := none, timeout := tm }) stTok).1 =
      .ok (.failure false (.transport (some (401, code401 "authorization.unauthorized")))
              (some { url := url, payload := some (redactPayload b), method := "post" }),
          some { headers := hs, noAuth := false, noPaginate := np, noRelogin := true,
                 asFormData := af, method := none, timeout := tm })
    ∧
    get (mkWorld (trRetry "authorization.unauthorized" "authorization.unauthorized")) url2
        (some { headers := hs, noAuth := false, noPaginate := np, noRelogin := true,
                asFormData := af, method := mth, timeout := tm }) { token := none } =
      (.ok (.failure false (.credentials 401 "authorization.unauthorized"
              "Token provider returned nothing, but relogin is disabled") none,
          some { headers := hs, noAuth := false, noPaginate := np, noRelogin := true,
                 asFormData := af, method := mth, timeout := tm }),
       { token := none })
    ∧
    (get (mkWorld (trRetry "authorization.unauthorized" "authorization.unauthorized")) url2
        (some { headers := hs, noAuth := false, noPaginate := np, noRelogin := true,
                asFormData := af, method := mth, timeout := tm }) stTok).1 =
      .ok (.failure false (.transport (some (401, code401 "authorization.unauthorized")))
              (some { url := url2, method := "get" }),
          some { headers := hs, noAuth := false, noPaginate := np, noRelogin := true,
                 asFormData := af, method := mth, timeout := tm })
    ∧
    (get (mkWorld (trRetry "authorization.unauthorized" "authorization.unauthorized")) url2
        (some { headers := hs, noAuth := false, noPaginate := np, noRelogin := true,
                asFormData := af, method := mth, timeout := tm }) stTok).2.calls = 1 := by
  exact ⟨rfl, rfl, rfl, rfl, rfl⟩

end Cattr
